import Mathlib

/-!
Shallow embedding of the goodproxy proxy checker (`goodproxy.py`) and its echo
web server (`simpleserver.py`), together with theorems about the anonymity
classifier, the probe worker loop, the echo oracle handler, the opener
installation, and the proxy list loader.
-/

namespace GoodProxy

/-! ## Strings and Python string primitives -/

/-- Uppercase conversion of one character: the Python `str.upper` method
restricted to the ASCII range (the header vocabulary handled by the checker
is ASCII). Code points 97..122 (lowercase letters) map 32 down; everything
else is unchanged. -/
def upChar (c : Char) : Char :=
  if 97 ≤ c.toNat ∧ c.toNat ≤ 122 then Char.ofNat (c.toNat - 32) else c

/-- Uppercase of a whole string, modelling the Python `str.upper` method. -/
def upStr (s : String) : String :=
  ⟨s.data.map upChar⟩

/-- Boolean test that the first list is an initial segment of the second. -/
def isPrefixList : List Char → List Char → Bool
  | [], _ => true
  | _ :: _, [] => false
  | a :: pa, b :: sb => a == b && isPrefixList pa sb

/-- Boolean substring occurrence test: `occursIn pat s` holds when `pat`
appears contiguously inside `s`.  Models the Python `in` operator on
strings. -/
def occursIn (pat : List Char) : List Char → Bool
  | [] => isPrefixList pat []
  | b :: t => isPrefixList pat (b :: t) || occursIn pat t

/-- String-level wrapper for `occursIn`: the Python expression `pat in s`. -/
def pyIn (pat s : String) : Bool :=
  occursIn pat.data s.data

/-- Characters removed by the Python `str.strip` method: the ASCII
whitespace characters space, tab, newline, carriage return, vertical tab
and form feed. -/
def isPySpace (c : Char) : Bool :=
  c == ' ' || c == '\t' || c == '\n' || c == '\x0d' || c == '\x0b' || c == '\x0c'

/-- Removal of trailing whitespace characters from a character list. -/
def stripRight : List Char → List Char
  | [] => []
  | a :: t =>
    if (stripRight t).isEmpty && isPySpace a then [] else a :: stripRight t

/-- The Python `str.strip` method (no argument): leading and trailing
whitespace removed. -/
def pyStrip (s : String) : String :=
  ⟨stripRight (s.data.dropWhile isPySpace)⟩

/-! ## Anonymity classifier (`goodproxy.py` lines 188-211) -/

/-- The three anonymity levels assigned by the checker (lines 203-211 of
`goodproxy.py`). -/
inductive ProxyType
  | Transparent
  | Anonymous
  | Elite
deriving DecidableEq

/-- Classification over the already-computed uppercased key set and
uppercased value list, exactly as in `goodproxy.py` lines 203-211:

  if wanip + ":" + str(port) in header_values: "Transparent"
  elif bool([key for key in header_keys if "FORWARD" in key.upper()
             or "VIA" in key.upper() or "PROXY" in key.upper()]): "Anonymous"
  else: "Elite"

The extra `.upper()` applied to each key in the source is kept faithfully
(the keys in `header_keys` are already uppercased at construction). -/
def classifyLists (keys values : List String) (wanip : String) (port : Nat) : ProxyType :=
  if wanip ++ ":" ++ toString port ∈ values then ProxyType.Transparent
  else if keys.any (fun key =>
      pyIn "FORWARD" (upStr key) || pyIn "VIA" (upStr key) || pyIn "PROXY" (upStr key)) then
    ProxyType.Anonymous
  else ProxyType.Elite

/-- The uppercased header value list of `goodproxy.py` line 189:
`header_values = [item[1].upper() for item in headers_json]`. -/
def headerValuesUp (hs : List (String × String)) : List String :=
  hs.map (fun p => upStr p.2)

/-- The uppercased header key set of `goodproxy.py` line 188:
`header_keys = set([item[0].upper() for item in headers_json])`.  A Python
set is modelled by the list of distinct elements (`dedup`): membership and
cardinality agree with the set. -/
def headerKeysUp (hs : List (String × String)) : List String :=
  (hs.map (fun p => upStr p.1)).dedup

/-- End-to-end classification of a decoded header list, composing the
key/value extraction of lines 188-189 with the decision of lines 203-211. -/
def classify (hs : List (String × String)) (wanip : String) (port : Nat) : ProxyType :=
  classifyLists (headerKeysUp hs) (headerValuesUp hs) wanip port

/-- Case-insensitive marker test on one raw header name: the uppercased
name contains FORWARD, VIA or PROXY as a substring. -/
def nameMatches (name : String) : Bool :=
  pyIn "FORWARD" (upStr name) || pyIn "VIA" (upStr name) || pyIn "PROXY" (upStr name)

/-! ## Decoded JSON values and the header comprehensions

`json.loads` returns an arbitrary JSON value, not necessarily a list of
name/value pairs.  The comprehensions at lines 188-189 of `goodproxy.py`
run outside any `try` block, so their Python-level exceptions (iterating a
non-iterable, indexing out of range, calling `.upper()` on a non-string)
propagate out of `test_proxy` uncaught. -/

/-- Decoded JSON values as produced by `json.loads`. -/
inductive Json
  | str (s : String)
  | num (n : Int)
  | bool (b : Bool)
  | null
  | arr (xs : List Json)
  | obj (fields : List (String × Json))

/-- Python exceptions that can escape the header comprehensions. -/
inductive PyErr
  | typeError
  | indexError
  | keyError
  | attributeError
deriving DecidableEq

/-- Iteration over a decoded JSON value (`for item in headers_json`):
arrays yield their elements, strings yield their one-character substrings,
objects (dicts) yield their keys, and every other value raises TypeError. -/
def pyIter : Json → Except PyErr (List Json)
  | Json.arr xs => Except.ok xs
  | Json.str s => Except.ok (s.data.map (fun c => Json.str (String.singleton c)))
  | Json.obj fs => Except.ok (fs.map (fun f => Json.str f.1))
  | _ => Except.error PyErr.typeError

/-- Subscripting a decoded JSON value (`item[i]` for a numeric index):
arrays and strings index positionally (IndexError when out of range),
dicts raise KeyError for a numeric key, everything else raises
TypeError. -/
def pyIndex (j : Json) (i : Nat) : Except PyErr Json :=
  match j with
  | Json.arr xs =>
    match xs[i]? with
    | some x => Except.ok x
    | none => Except.error PyErr.indexError
  | Json.str s =>
    match s.data[i]? with
    | some c => Except.ok (Json.str (String.singleton c))
    | none => Except.error PyErr.indexError
  | Json.obj _ => Except.error PyErr.keyError
  | _ => Except.error PyErr.typeError

/-- The `.upper()` call on a subscripted item: only strings have the
method, everything else raises AttributeError. -/
def pyUpper : Json → Except PyErr String
  | Json.str s => Except.ok (upStr s)
  | _ => Except.error PyErr.attributeError

/-- One of the comprehensions `[item[i].upper() for item in items]`,
evaluated left to right with the first exception propagating. -/
def mapIndexUpper (i : Nat) : List Json → Except PyErr (List String)
  | [] => Except.ok []
  | item :: rest =>
    match pyIndex item i with
    | Except.error e => Except.error e
    | Except.ok x =>
      match pyUpper x with
      | Except.error e => Except.error e
      | Except.ok s =>
        match mapIndexUpper i rest with
        | Except.error e => Except.error e
        | Except.ok ss => Except.ok (s :: ss)

/-- Line 188 of `goodproxy.py`:
`header_keys = set([item[0].upper() for item in headers_json])`. -/
def extractHeaderKeys (j : Json) : Except PyErr (List String) :=
  match pyIter j with
  | Except.error e => Except.error e
  | Except.ok items =>
    match mapIndexUpper 0 items with
    | Except.error e => Except.error e
    | Except.ok names => Except.ok names.dedup

/-- Line 189 of `goodproxy.py`:
`header_values = [item[1].upper() for item in headers_json]`. -/
def extractHeaderValues (j : Json) : Except PyErr (List String) :=
  match pyIter j with
  | Except.error e => Except.error e
  | Except.ok items => mapIndexUpper 1 items

/-- Embedding of a well-shaped header list (a JSON array of two-element
arrays of strings) into `Json`, the shape the echo oracle actually
produces. -/
def pairsToJson (hs : List (String × String)) : Json :=
  Json.arr (hs.map (fun p => Json.arr [Json.str p.1, Json.str p.2]))

/-! ## One iteration of the worker loop (`test_proxy`, lines 109-235) -/

/-- Log calls performed by one worker iteration (both at debug level). -/
inductive LogEvent
  | debugUnexpectedError (proxy : String)
  | debugJsonError (proxy : String)
deriving DecidableEq

/-- Result stored in the shared `good_proxies` list on a fully successful
probe.  The source appends the formatted string
`"{proxy},{level},{elapsed},{headers}"`; the wall-clock elapsed time is
real time and is not modelled. -/
structure ProbeResult where
  proxy : String
  level : ProxyType
  headers : Json

/-- Observable effects of one iteration of the `while True` loop of
`test_proxy` on one dequeued candidate: the appended result (if any),
whether `task_done()` was called on the queue, the log calls made, and an
uncaught exception escaping the iteration (which terminates the worker
thread), if any. -/
structure StepResult where
  emitted : Option ProbeResult
  taskDone : Bool
  logs : List LogEvent
  raised : Option PyErr

/-- Outcome of the guarded network fetch of lines 141-185: the `urlopen`
call inside its `try` (lines 141-169) followed by the guarded
`json.loads` (lines 173-185).  `ok r` carries the outcome of
`json.loads` on the response body; `Except.error` is the ValueError it
raises on unparseable input. -/
inductive FetchOutcome
  | urlError
  | otherNetError
  | unexpectedError
  | ok (decodeResult : Except Unit Json)

/-- One iteration of the worker loop of `test_proxy` (lines 109-235) on a
dequeued candidate `proxy`, given the fetch/decode outcome.  Traces the
source exactly: every failure branch executes `continue` without calling
`task_done()`; the header comprehensions run unguarded, so their
exceptions escape the loop; the shape mismatch at lines 194-195 skips
silently; only the fully successful path appends to `good_proxies` and
calls `task_done()`. -/
def workerStep (proxy wanip : String) (port : Nat) (fetch : FetchOutcome) : StepResult :=
  match fetch with
  | FetchOutcome.urlError => ⟨none, false, [], none⟩
  | FetchOutcome.otherNetError => ⟨none, false, [], none⟩
  | FetchOutcome.unexpectedError => ⟨none, false, [LogEvent.debugUnexpectedError proxy], none⟩
  | FetchOutcome.ok (Except.error _) => ⟨none, false, [LogEvent.debugJsonError proxy], none⟩
  | FetchOutcome.ok (Except.ok j) =>
    match extractHeaderKeys j with
    | Except.error e => ⟨none, false, [], some e⟩
    | Except.ok keys =>
      match extractHeaderValues j with
      | Except.error e => ⟨none, false, [], some e⟩
      | Except.ok values =>
        if keys.length ≠ values.length then ⟨none, false, [], none⟩
        else
          ⟨some ⟨proxy, classifyLists keys values wanip port, j⟩, true, [], none⟩

/-- Number of completions recorded on the queue by a list of worker
iterations: `queue.join()` in `main` (line 284) returns only when this
count reaches the number of enqueued items. -/
def completionsRecorded (steps : List StepResult) : Nat :=
  steps.countP (fun s => s.taskDone)

/-! ## The urllib global opener (`goodproxy.py` lines 127-130)

`urllib.request.install_opener(opener)` installs `opener` as the single
module-level default opener of `urllib.request`; the subsequent
`urllib.request.urlopen` call on line 143 uses whatever opener is
currently installed in the module, not a per-thread one. -/

/-- Actions of the worker threads on the module-level opener: installing
an opener configured with a proxy (lines 128-130) and performing a
`urlopen` request that uses the currently installed opener (line 143). -/
inductive OpenerEvent
  | installOpener (worker : Nat) (proxy : String)
  | urlopenUses (worker : Nat)

/-- Replay of an interleaving of opener events, starting from a given
installed opener; records, for each `urlopen`, which worker made the
request and which proxy the installed opener routed it through. -/
def openerRuns : Option String → List OpenerEvent → List (Nat × Option String)
  | _, [] => []
  | _, OpenerEvent.installOpener _ p :: rest => openerRuns (some p) rest
  | st, OpenerEvent.urlopenUses w :: rest => (w, st) :: openerRuns st rest

/-! ## Proxy list loading (`goodproxy.py` lines 58-62) -/

/-- The `loadProxyList` function: for each line of the file (iterated with
trailing newline included), `proxy_list.put(line.strip())`.  Every line is
enqueued; no filtering occurs. -/
def loadProxyList (lines : List String) : List String :=
  lines.map pyStrip

/-! ## Echo oracle server (`simpleserver.py`) -/

/-- Lexicographic comparison of header pairs, the Python tuple ordering
used by `sorted(self.headers.items())`. -/
def hdrLe (a b : String × String) : Prop :=
  a.1 < b.1 ∨ (a.1 = b.1 ∧ a.2 ≤ b.2)

instance : DecidableRel hdrLe := fun a b => by
  unfold hdrLe
  infer_instance

/-- The Python builtin `sorted` on a list of string pairs, compared by the
tuple order.  Modelled by insertion sort; `hdrLe` is a total, transitive
and antisymmetric order, so the sorted permutation is unique and the
choice of algorithm does not matter. -/
def sortHeaderPairs (hs : List (String × String)) : List (String × String) :=
  List.insertionSort hdrLe hs

/-- Hexadecimal digit characters (lowercase), used by the JSON encoder. -/
def hexDig (n : Nat) : Char :=
  if n < 10 then Char.ofNat (48 + n) else Char.ofNat (87 + n)

/-- Four-digit hexadecimal rendering of a code point for a `\u` escape. -/
def hex4 (n : Nat) : List Char :=
  [hexDig (n / 4096 % 16), hexDig (n / 256 % 16), hexDig (n / 16 % 16), hexDig (n % 16)]

/-- Escaping of one character by the Python `json.JSONEncoder` defaults
(`ensure_ascii=True`): named escapes for quote, backslash and the common
control characters; `\uXXXX` escapes (with surrogate pairs above the basic
plane) for all other characters outside the printable ASCII range. -/
def jsonEscChar (c : Char) : List Char :=
  if c == '"' then ['\\', '"']
  else if c == '\\' then ['\\', '\\']
  else if c == '\n' then ['\\', 'n']
  else if c == '\x0d' then ['\\', 'r']
  else if c == '\t' then ['\\', 't']
  else if c.toNat == 8 then ['\\', 'b']
  else if c.toNat == 12 then ['\\', 'f']
  else if c.toNat < 32 || 126 < c.toNat then
    if c.toNat < 65536 then '\\' :: 'u' :: hex4 c.toNat
    else
      ('\\' :: 'u' :: hex4 (55296 + (c.toNat - 65536) / 1024)) ++
        ('\\' :: 'u' :: hex4 (56320 + (c.toNat - 65536) % 1024))
  else [c]

/-- JSON encoding of one string, quotes included. -/
def jsonEncodeStr (s : String) : String :=
  ⟨'"' :: s.data.foldr (fun c acc => jsonEscChar c ++ acc) ['"']⟩

/-- The Python expression `json.JSONEncoder().encode(pairs)` on a list of
two-element tuples of strings: a JSON array of two-element arrays, with
the default `", "` item separator.  On string inputs this encoder never
raises. -/
def jsonEncodePairs (hs : List (String × String)) : String :=
  "[" ++ String.intercalate ", "
    (hs.map (fun p => "[" ++ jsonEncodeStr p.1 ++ ", " ++ jsonEncodeStr p.2 ++ "]")) ++ "]"

/-- The integer constant `logging.DEBUG` of the Python logging module. -/
def loggingDEBUG : Nat := 10

/-- Calling an integer as if it were a function, as the except branch of
`do_GET` does with `logging.DEBUG(...)`: always raises TypeError. -/
def pyCallNat (_f : Nat) (_arg : String) : Except PyErr String :=
  Except.error PyErr.typeError

/-- Writes performed on the response stream by the body part of `do_GET`,
together with the exception escaping the handler, if any. -/
structure StepWrites where
  bodyWrites : List String
  raised : Option PyErr
deriving DecidableEq

/-- Body writes performed by `do_GET` (lines 36-47 of `simpleserver.py`)
after the status and headers have been sent, given the outcome of
`json.JSONEncoder().encode(sorted(self.headers.items()))`.  On success the
encoded body and then the trailing newline are written.  On an encoding
error the except branch evaluates `logging.DEBUG(...)`, a call on the
integer constant `logging.DEBUG`; the TypeError it raises is not caught,
so it escapes the handler and the trailing newline write on line 47 is
never reached. -/
def doGetWrites (enc : Except Unit String) : StepWrites :=
  match enc with
  | Except.ok s => ⟨[s, "\n"], none⟩
  | Except.error _ =>
    match pyCallNat loggingDEBUG "Server JSON encoding error" with
    | Except.ok _ => ⟨["\n"], none⟩
    | Except.error e => ⟨[], some e⟩

/-- The response assembled by the request handler.  `MyHandler` defines
only `do_GET`; for any other method the `http.server` base class finds no
`do_<METHOD>` attribute and sends its stock 501 error page (an HTML body,
modelled here only by its message text). -/
structure OracleResponse where
  status : Nat
  contentType : Option String
  body : String
deriving DecidableEq

/-- Full handling of one inbound request by the echo oracle server: the
method dispatch of `http.server.BaseHTTPRequestHandler` combined with
`MyHandler.do_GET` (encoding of string pairs never fails, so the success
branch of `doGetWrites` applies). -/
def handleRequest (method _path : String) (hs : List (String × String)) : OracleResponse :=
  if method = "GET" then
    ⟨200, some "application/json",
      String.join (doGetWrites (Except.ok (jsonEncodePairs (sortHeaderPairs hs)))).bodyWrites⟩
  else
    ⟨501, some "text/html;charset=utf-8", "Unsupported method (" ++ method ++ ")"⟩

/-! ## Helper lemmas -/

lemma upChar_toNat_lower {c : Char} (h1 : 97 ≤ c.toNat) (h2 : c.toNat ≤ 122) :
    (upChar c).toNat = c.toNat - 32 := by
  rw [upChar, if_pos ⟨h1, h2⟩]
  generalize hg : c.toNat = n at h1 h2 ⊢
  interval_cases n <;> decide

lemma upChar_fix {c : Char} (h : ¬(97 ≤ c.toNat ∧ c.toNat ≤ 122)) : upChar c = c := by
  rw [upChar, if_neg h]

lemma upChar_idem (c : Char) : upChar (upChar c) = upChar c := by
  by_cases h : 97 ≤ c.toNat ∧ c.toNat ≤ 122
  · have ht : (upChar c).toNat = c.toNat - 32 := upChar_toNat_lower h.1 h.2
    exact upChar_fix (by omega)
  · rw [upChar_fix h, upChar_fix h]

lemma upStr_idem (s : String) : upStr (upStr s) = upStr s := by
  show (⟨(s.data.map upChar).map upChar⟩ : String) = ⟨s.data.map upChar⟩
  rw [List.map_map]
  congr 1
  exact List.map_congr_left (fun c _ => upChar_idem c)

lemma pyIn_upStr_idem (pat s : String) : pyIn pat (upStr (upStr s)) = pyIn pat (upStr s) := by
  rw [upStr_idem]

lemma head_dropWhile_not_space :
    ∀ (l : List Char) (c : Char), (l.dropWhile isPySpace).head? = some c → isPySpace c = false := by
  intro l
  induction l with
  | nil => intro c h; simp [List.dropWhile_nil] at h
  | cons a t ih =>
    intro c h
    rw [List.dropWhile_cons] at h
    by_cases ha : isPySpace a
    · rw [if_pos ha] at h
      exact ih c h
    · rw [if_neg ha] at h
      simp only [List.head?_cons, Option.some.injEq] at h
      subst h
      exact Bool.eq_false_iff.mpr ha

lemma stripRight_head : ∀ (l : List Char) (c : Char),
    (stripRight l).head? = some c → l.head? = some c := by
  intro l c h
  cases l with
  | nil => simp [stripRight] at h
  | cons a t =>
    rw [stripRight] at h
    split at h
    · simp at h
    · simp only [List.head?_cons, Option.some.injEq] at h
      subst h
      rfl

lemma stripRight_last : ∀ (l : List Char) (c : Char),
    (stripRight l).getLast? = some c → isPySpace c = false := by
  intro l
  induction l with
  | nil => intro c h; simp [stripRight] at h
  | cons a t ih =>
    intro c h
    rw [stripRight] at h
    split at h
    · simp at h
    · rename_i hc
      cases hr : stripRight t with
      | nil =>
        rw [hr] at h hc
        simp only [List.getLast?_singleton, Option.some.injEq] at h
        subst h
        simpa using hc
      | cons b u =>
        rw [hr] at h
        rw [List.getLast?_cons_cons] at h
        exact ih c (hr ▸ h)

lemma stripRight_all_space : ∀ l : List Char, (∀ c ∈ l, isPySpace c = true) → stripRight l = [] := by
  intro l
  induction l with
  | nil => intro _; rfl
  | cons a t ih =>
    intro h
    have ht : stripRight t = [] := ih (fun c hc => h c (List.mem_cons_of_mem a hc))
    rw [stripRight, ht]
    simp [h a (List.mem_cons_self a t)]

lemma dropWhile_all_space (l : List Char) (h : ∀ c ∈ l, isPySpace c = true) :
    l.dropWhile isPySpace = [] := by
  induction l with
  | nil => rfl
  | cons a t ih =>
    rw [List.dropWhile_cons, if_pos (h a (List.mem_cons_self a t))]
    exact ih (fun c hc => h c (List.mem_cons_of_mem a hc))

lemma dedup_length_lt_of_not_nodup {l : List String} (h : ¬l.Nodup) :
    l.dedup.length < l.length := by
  rcases Nat.lt_or_ge l.dedup.length l.length with hlt | hge
  · exact hlt
  · exfalso
    have hsub : List.Sublist l.dedup l := List.dedup_sublist l
    have hle : l.dedup.length ≤ l.length := hsub.length_le
    have heq : l.dedup = l := hsub.eq_of_length (Nat.le_antisymm hle hge)
    exact h (heq ▸ List.nodup_dedup l)

lemma mapIndexUpper_zero_pairs (hs : List (String × String)) :
    mapIndexUpper 0 (hs.map (fun p => Json.arr [Json.str p.1, Json.str p.2]))
      = Except.ok (hs.map (fun p => upStr p.1)) := by
  induction hs with
  | nil => rfl
  | cons p t ih =>
    simp only [List.map_cons, mapIndexUpper, pyIndex, pyUpper, ih]
    rfl

lemma mapIndexUpper_one_pairs (hs : List (String × String)) :
    mapIndexUpper 1 (hs.map (fun p => Json.arr [Json.str p.1, Json.str p.2]))
      = Except.ok (hs.map (fun p => upStr p.2)) := by
  induction hs with
  | nil => rfl
  | cons p t ih =>
    simp only [List.map_cons, mapIndexUpper, pyIndex, pyUpper, ih]
    rfl

lemma extractHeaderKeys_pairs (hs : List (String × String)) :
    extractHeaderKeys (pairsToJson hs) = Except.ok (headerKeysUp hs) := by
  rw [extractHeaderKeys, pairsToJson]
  simp only [pyIter, mapIndexUpper_zero_pairs]
  rfl

lemma extractHeaderValues_pairs (hs : List (String × String)) :
    extractHeaderValues (pairsToJson hs) = Except.ok (headerValuesUp hs) := by
  rw [extractHeaderValues, pairsToJson]
  simp only [pyIter, mapIndexUpper_one_pairs]
  rfl

instance : IsTotal (String × String) hdrLe := by
  constructor
  intro a b
  rcases lt_trichotomy a.1 b.1 with h | h | h
  · exact Or.inl (Or.inl h)
  · rcases le_total a.2 b.2 with h2 | h2
    · exact Or.inl (Or.inr ⟨h, h2⟩)
    · exact Or.inr (Or.inr ⟨h.symm, h2⟩)
  · exact Or.inr (Or.inl h)

instance : IsTrans (String × String) hdrLe := by
  constructor
  intro a b c hab hbc
  rcases hab with h1 | ⟨h1, h1v⟩
  · rcases hbc with h2 | ⟨h2, _⟩
    · exact Or.inl (h1.trans h2)
    · exact Or.inl (h2 ▸ h1)
  · rcases hbc with h2 | ⟨h2, h2v⟩
    · exact Or.inl (h1 ▸ h2)
    · exact Or.inr ⟨h1.trans h2, h1v.trans h2v⟩

/-! ## Claim theorems -/

/-- C2 counterexample: with wanip `myhost` and port 80, the header value
`MYHOST:80` is case-insensitively equal to the literal `myhost:80`, yet the
classifier returns Elite, not Transparent: the source uppercases only the
header values and compares them with the raw `wanip:port` string, so the
match is not case-insensitive on the `wanip` side. -/
theorem c2_counterexample :
    upStr "MYHOST:80" = upStr ("myhost" ++ ":" ++ toString 80) ∧
    classify [("Accept", "MYHOST:80")] "myhost" 80 ≠ ProxyType.Transparent ∧
    classify [("Accept", "MYHOST:80")] "myhost" 80 = ProxyType.Elite := by
  decide

/-- C2 (amended): if any header value, uppercased, equals the literal
string `"<wanip>:<port>"` verbatim, the classifier returns Transparent,
and this address-leak rule takes priority over the self-identification
rule even when both match (no assumption on the header names is made).
The comparison is case-insensitive in the value exactly when
`"<wanip>:<port>"` contains no lowercase letter. -/
theorem c2_upper_value_match_transparent (hs : List (String × String)) (wanip : String)
    (port : Nat) (h : ∃ p ∈ hs, upStr p.2 = wanip ++ ":" ++ toString port) :
    classify hs wanip port = ProxyType.Transparent := by
  obtain ⟨p, hm, he⟩ := h
  have hmem : wanip ++ ":" ++ toString port ∈ headerValuesUp hs :=
    List.mem_map.mpr ⟨p, hm, he⟩
  rw [classify, classifyLists, if_pos hmem]

/-- C2 witness: scenario B of the specification, with both a `Via` name
and a leaking value present, classifies as Transparent. -/
theorem c2_witness :
    classify [("Via", "proxy.local"), ("X-Real-Value", "9.9.9.9:80")] "9.9.9.9" 80
      = ProxyType.Transparent :=
  c2_upper_value_match_transparent _ _ _
    ⟨("X-Real-Value", "9.9.9.9:80"), by decide, by decide⟩

/-- C3: for every header set with no value case-insensitively equal to
`"<wanip>:<port>"`, the classifier returns Anonymous when some header name
contains FORWARD, VIA or PROXY case-insensitively, and Elite when no
header name does. -/
theorem c3_no_leak_name_rule (hs : List (String × String)) (wanip : String) (port : Nat)
    (hnoleak : ∀ p ∈ hs, upStr p.2 ≠ upStr (wanip ++ ":" ++ toString port)) :
    ((∃ p ∈ hs, nameMatches p.1 = true) → classify hs wanip port = ProxyType.Anonymous) ∧
    ((∀ p ∈ hs, nameMatches p.1 = false) → classify hs wanip port = ProxyType.Elite) := by
  have hval : wanip ++ ":" ++ toString port ∉ headerValuesUp hs := by
    intro hmem
    obtain ⟨p, hm, he⟩ := List.mem_map.mp hmem
    apply hnoleak p hm
    rw [← he]
    exact (upStr_idem p.2).symm
  have hany : (headerKeysUp hs).any (fun key =>
      pyIn "FORWARD" (upStr key) || pyIn "VIA" (upStr key) || pyIn "PROXY" (upStr key)) = true
      ↔ ∃ p ∈ hs, nameMatches p.1 = true := by
    rw [List.any_eq_true]
    constructor
    · rintro ⟨key, hk, hkey⟩
      rw [headerKeysUp, List.mem_dedup] at hk
      obtain ⟨p, hm, hp⟩ := List.mem_map.mp hk
      refine ⟨p, hm, ?_⟩
      rw [nameMatches]
      rw [← hp, upStr_idem] at hkey
      exact hkey
    · rintro ⟨p, hm, hp⟩
      refine ⟨upStr p.1, ?_, ?_⟩
      · rw [headerKeysUp, List.mem_dedup]
        exact List.mem_map.mpr ⟨p, hm, rfl⟩
      · rw [upStr_idem]
        rw [nameMatches] at hp
        exact hp
  constructor
  · intro hex
    rw [classify, classifyLists, if_neg hval, if_pos (hany.mpr hex)]
  · intro hall
    have hnotany : ¬((headerKeysUp hs).any (fun key =>
        pyIn "FORWARD" (upStr key) || pyIn "VIA" (upStr key)
          || pyIn "PROXY" (upStr key)) = true) := by
      rw [hany]
      rintro ⟨p, hm, hp⟩
      rw [hall p hm] at hp
      exact Bool.false_ne_true hp
    rw [classify, classifyLists, if_neg hval, if_neg hnotany]

/-- C3 witness: scenario A (`X-Forwarded-For` name, no leaking value) is
Anonymous and scenario C (`Accept` only) is Elite. -/
theorem c3_witness :
    classify [("X-Forwarded-For", "1.2.3.4")] "9.9.9.9" 80 = ProxyType.Anonymous ∧
    classify [("Accept", "*/*")] "9.9.9.9" 80 = ProxyType.Elite := by
  constructor
  · exact (c3_no_leak_name_rule _ "9.9.9.9" 80 (by decide)).1
      ⟨("X-Forwarded-For", "1.2.3.4"), by decide, by decide⟩
  · exact (c3_no_leak_name_rule _ "9.9.9.9" 80 (by decide)).2 (by decide)

/-- C1: `test_proxy` calls `task_done()` only on the fully successful
path; every failure branch (network error, decode error, shape mismatch)
executes `continue` without reporting completion.  With two enqueued
candidates of which one fails, only one completion is recorded, so the
blocking `proxy_list.join()` of `main` never observes the required two
completions and never returns. -/
theorem c1_completion_only_on_success :
    (workerStep "1.2.3.4:80" "9.9.9.9" 80 FetchOutcome.urlError).taskDone = false ∧
    (workerStep "1.2.3.4:80" "9.9.9.9" 80 (FetchOutcome.ok (Except.error ()))).taskDone = false ∧
    completionsRecorded
        [workerStep "1.2.3.4:80" "9.9.9.9" 80 FetchOutcome.urlError,
          workerStep "5.6.7.8:80" "9.9.9.9" 80
            (FetchOutcome.ok (Except.ok (pairsToJson [("Via", "x")])))] = 1 :=
  ⟨rfl, rfl, rfl⟩

/-- C4 counterexample: `MyHandler` defines only `do_GET`, so a POST
request is answered by the stock 501 error of the base class, not with
status 200. -/
theorem c4_counterexample :
    (handleRequest "POST" "/" [("Host", "h")]).status = 501 ∧
    (handleRequest "POST" "/" [("Host", "h")]).status ≠ 200 := by
  decide

/-- C4 (amended): for every inbound GET request, regardless of path, the
echo oracle responds with status 200, content type `application/json` and
a body that is the JSON array of the received header pairs sorted by the
pair order (hence by name), terminated by a newline; the sorted list is a
permutation of the received headers. -/
theorem c4_get_response (path : String) (hs : List (String × String)) :
    handleRequest "GET" path hs =
      ⟨200, some "application/json", jsonEncodePairs (sortHeaderPairs hs) ++ "\n"⟩ ∧
    (sortHeaderPairs hs).Pairwise (fun a b => a.1 ≤ b.1) ∧
    List.Perm (sortHeaderPairs hs) hs := by
  refine ⟨rfl, ?_, ?_⟩
  · have hsorted : List.Sorted hdrLe (List.insertionSort hdrLe hs) :=
      List.sorted_insertionSort hdrLe hs
    refine List.Pairwise.imp ?_ hsorted
    intro a b hab
    rcases hab with h | ⟨h, _⟩
    · exact le_of_lt h
    · exact le_of_eq h
  · exact List.perm_insertionSort hdrLe hs

/-- C5 counterexample: a decoded payload with names `Via` and `via`
(one distinct uppercased name against two values) is discarded, but the
discard branch at lines 194-195 of `goodproxy.py` performs no logging
call at all: the log trace of the iteration is empty, contradicting the
claimed debug-granularity log. -/
theorem c5_counterexample :
    (workerStep "1.2.3.4:80" "9.9.9.9" 80
        (FetchOutcome.ok (Except.ok (pairsToJson [("Via", "a"), ("via", "b")])))).emitted
      = none ∧
    (workerStep "1.2.3.4:80" "9.9.9.9" 80
        (FetchOutcome.ok (Except.ok (pairsToJson [("Via", "a"), ("via", "b")])))).logs
      = [] :=
  ⟨rfl, rfl⟩

/-- C5 (amended): for every successfully decoded payload whose distinct
header name count differs from its header value count, the worker
discards the candidate with no ProbeResult, no completion report and no
log call of any granularity (the skip is silent), and raises nothing. -/
theorem c5_shape_mismatch_silent (proxy wanip : String) (port : Nat) (j : Json)
    (keys values : List String)
    (hk : extractHeaderKeys j = Except.ok keys)
    (hv : extractHeaderValues j = Except.ok values)
    (hne : keys.length ≠ values.length) :
    workerStep proxy wanip port (FetchOutcome.ok (Except.ok j)) = ⟨none, false, [], none⟩ := by
  simp only [workerStep, hk, hv]
  rw [if_pos hne]

/-- C5 witness: a concrete mismatched payload evaluates to the silent
skip. -/
theorem c5_witness :
    workerStep "1.2.3.4:8080" "9.9.9.9" 80
        (FetchOutcome.ok (Except.ok (pairsToJson [("A", "v"), ("a", "w")])))
      = ⟨none, false, [], none⟩ :=
  c5_shape_mismatch_silent _ _ _ _ ["A"] ["V", "W"] rfl rfl (by decide)

/-- C6: a response body that decodes as valid JSON which is not a list of
name/value pairs (here the number 0) raises a TypeError in the unguarded
header comprehension of line 188; the exception escapes the loop and
terminates the worker thread, while genuine network failures are indeed
absorbed silently. -/
theorem c6_nonpair_json_kills_worker :
    (workerStep "1.2.3.4:3128" "9.9.9.9" 80
        (FetchOutcome.ok (Except.ok (Json.num 0)))).raised = some PyErr.typeError ∧
    (workerStep "1.2.3.4:3128" "9.9.9.9" 80
        (FetchOutcome.ok (Except.ok (Json.num 0)))).emitted = none ∧
    (workerStep "1.2.3.4:3128" "9.9.9.9" 80 FetchOutcome.urlError).raised = none ∧
    (workerStep "1.2.3.4:3128" "9.9.9.9" 80 FetchOutcome.urlError).emitted = none :=
  ⟨rfl, rfl, rfl, rfl⟩

/-- C7: `install_opener` mutates the single module-level opener of
`urllib.request`.  In the interleaving where worker 0 installs its opener,
worker 1 installs its opener, and worker 0 then calls `urlopen`, the
request of worker 0 is routed through the proxy of worker 1: the outbound
request configuration is shared mutable state, not local to a worker. -/
theorem c7_installed_opener_shared :
    openerRuns none
        [OpenerEvent.installOpener 0 "10.0.0.1:3128",
          OpenerEvent.installOpener 1 "10.0.0.2:3128",
          OpenerEvent.urlopenUses 0]
      = [(0, some "10.0.0.2:3128")] ∧
    (some "10.0.0.2:3128" : Option String) ≠ some "10.0.0.1:3128" := by
  exact ⟨rfl, by decide⟩

/-- C8 counterexample: a blank line in the candidate file is stripped to
the empty string and enqueued, so the work queue does receive a blank
candidate. -/
theorem c8_counterexample : "" ∈ loadProxyList ["1.2.3.4:80\n", "\n"] := by
  decide

/-- C8 (amended): loading trims leading and trailing whitespace from each
line (no candidate starts or ends with a whitespace character), but no
line is filtered out: a line consisting solely of whitespace produces the
empty-string candidate in the work queue. -/
theorem c8_strip_and_blank_lines (lines : List String) :
    (∀ s ∈ loadProxyList lines,
      (∀ c, s.data.getLast? = some c → isPySpace c = false) ∧
      (∀ c, s.data.head? = some c → isPySpace c = false)) ∧
    (∀ line ∈ lines, (∀ c ∈ line.data, isPySpace c = true) → "" ∈ loadProxyList lines) := by
  constructor
  · intro s hsmem
    rw [loadProxyList] at hsmem
    obtain ⟨line, hline, hstrip⟩ := List.mem_map.mp hsmem
    subst hstrip
    constructor
    · intro c hc
      exact stripRight_last _ c hc
    · intro c hc
      exact head_dropWhile_not_space _ c (stripRight_head _ c hc)
  · intro line hline hall
    have hblank : pyStrip line = "" := by
      rw [pyStrip, dropWhile_all_space line.data hall]
      rfl
    rw [loadProxyList]
    exact List.mem_map.mpr ⟨line, hline, hblank⟩

/-- C8 witness: on a concrete file, the first candidate is trimmed with a
non-whitespace final character, and the whitespace-only line yields the
empty candidate. -/
theorem c8_witness :
    isPySpace '0' = false ∧ "" ∈ loadProxyList ["1.2.3.4:80 \n", " \t\n"] := by
  constructor
  · exact ((c8_strip_and_blank_lines ["1.2.3.4:80 \n", " \t\n"]).1
      "1.2.3.4:80" (by decide)).1 '0' (by decide)
  · exact (c8_strip_and_blank_lines ["1.2.3.4:80 \n", " \t\n"]).2 " \t\n" (by decide) (by decide)

/-- C9: a decoded payload containing two entries whose names agree after
uppercasing has fewer distinct uppercased names than values, so the shape
check fails and the candidate is discarded silently with no ProbeResult,
even though the payload is a structurally valid list of pairs. -/
theorem c9_duplicate_names_discarded (proxy wanip : String) (port : Nat)
    (hs : List (String × String)) (i j : Nat)
    (hi : i < hs.length) (hj : j < hs.length) (hij : i ≠ j)
    (hname : upStr (hs.get ⟨i, hi⟩).1 = upStr (hs.get ⟨j, hj⟩).1) :
    (headerKeysUp hs).length ≠ (headerValuesUp hs).length ∧
    workerStep proxy wanip port (FetchOutcome.ok (Except.ok (pairsToJson hs)))
      = ⟨none, false, [], none⟩ := by
  have hnotnodup : ¬(hs.map (fun p => upStr p.1)).Nodup := by
    intro hnod
    have hi' : i < (hs.map (fun p => upStr p.1)).length := by
      rw [List.length_map]; exact hi
    have hj' : j < (hs.map (fun p => upStr p.1)).length := by
      rw [List.length_map]; exact hj
    have hgi : (hs.map (fun p => upStr p.1))[i] = upStr (hs.get ⟨i, hi⟩).1 := by
      simp [List.getElem_map]
    have hgj : (hs.map (fun p => upStr p.1))[j] = upStr (hs.get ⟨j, hj⟩).1 := by
      simp [List.getElem_map]
    exact hij (hnod.getElem_inj_iff.mp (hgi.trans (hname.trans hgj.symm)))
  have hlt : (headerKeysUp hs).length < hs.length := by
    have := dedup_length_lt_of_not_nodup hnotnodup
    rw [List.length_map] at this
    exact this
  have hlenv : (headerValuesUp hs).length = hs.length := List.length_map hs _
  have hne : (headerKeysUp hs).length ≠ (headerValuesUp hs).length := by
    rw [hlenv]
    exact Nat.ne_of_lt hlt
  refine ⟨hne, ?_⟩
  simp only [workerStep, extractHeaderKeys_pairs, extractHeaderValues_pairs]
  rw [if_pos hne]

/-- C9 witness: the payload with duplicate names `Via` and `VIA` is
discarded with no result. -/
theorem c9_witness :
    workerStep "8.8.8.8:80" "9.9.9.9" 80
        (FetchOutcome.ok (Except.ok (pairsToJson [("Via", "a"), ("VIA", "b")])))
      = ⟨none, false, [], none⟩ :=
  (c9_duplicate_names_discarded "8.8.8.8:80" "9.9.9.9" 80
    [("Via", "a"), ("VIA", "b")] 0 1 (by decide) (by decide) (by decide) (by decide)).2

/-- C10: when the JSON encoding of the headers raises inside `do_GET`,
the except branch calls the integer constant `logging.DEBUG` as a
function; the resulting TypeError escapes the handler, so no body bytes
are written on that path and the trailing-newline write of line 47 is
never reached. -/
theorem c10_error_branch_raises :
    (doGetWrites (Except.error ())).raised = some PyErr.typeError ∧
    (doGetWrites (Except.error ())).bodyWrites = [] ∧
    "\n" ∉ (doGetWrites (Except.error ())).bodyWrites := by
  decide

end GoodProxy
